import Mathlib

/-!
Verification development for the flashcard-generation service.

This file gives a shallow embedding of the Python source:

* `src/services/ai_service.py` — `AIServiceAdvanced` (prompt construction and
  the retry / timeout / quantity-degradation loop of `generate_flashcards`);
* `src/models/request.py` — the `validate_topic` validator;
* `src/main.py` — the `GET /` and `GET /health` handlers;
* `src/services/rag_service.py` and `src/services/flashcard_service.py` —
  `_load_pdf_content` temporary-file handling.

The external LLM is an opaque capability: it is modelled as an oracle that,
for each attempt index and built prompt, yields the wall-clock duration the
call would take and the raw outcome (a structured result, possibly falsy or
lacking a non-empty `flashcards` list, or an exception carrying a message).
Wall-clock time is tracked in integer milliseconds.  The embedding is
instrumented: alongside the returned result dictionary it also reports the
list of quantities handed to the prompt builder, one per attempt actually
made, and the total elapsed milliseconds, so that theorems can speak about
the per-attempt effective quantity and about time the call consumed even
where the code discards it.
-/

/-- Embedding of the pydantic model `FlashcardAI` of `ai_service.py`:
front, back, difficulty, tags, optional explanation. -/
structure FlashcardAI where
  front : String
  back : String
  difficulty : String
  tags : List String
  explanation : Option String
deriving DecidableEq

/-- Raw outcome of `chain.ainvoke({})` before the surrounding validation:
either it raises an exception carrying a message, or it returns a value.
`ok none` models a falsy result or one without a usable `flashcards`
attribute; `ok (some cards)` models a structured result whose `flashcards`
list is `cards` (possibly empty). -/
inductive LLMRaw where
  | exn (msg : String)
  | ok (result : Option (List FlashcardAI))
deriving DecidableEq

/-- Behaviour of one LLM call: how many milliseconds the underlying
coroutine would take, and what it would produce if allowed to finish. -/
structure LLMBehavior where
  duration_ms : Nat
  raw : LLMRaw
deriving DecidableEq

/-- Outcome of an LLM call as seen through `asyncio.wait_for`. -/
inductive CallOutcome where
  | timeout
  | exn (msg : String)
  | ok (result : Option (List FlashcardAI))
deriving DecidableEq

/-- `asyncio.wait_for(chain.ainvoke({}), timeout=...)`: if the coroutine
exceeds the bound, a `TimeoutError` is raised after exactly the bound has
elapsed; otherwise the call finishes with its own outcome and duration.
Returns the observed outcome together with the milliseconds consumed. -/
def waitFor (timeout_ms : Nat) (b : LLMBehavior) : CallOutcome × Nat :=
  if b.duration_ms > timeout_ms then
    (CallOutcome.timeout, timeout_ms)
  else
    (match b.raw with
     | LLMRaw.exn msg => CallOutcome.exn msg
     | LLMRaw.ok r => CallOutcome.ok r,
     b.duration_ms)

/-- The result dictionary of `AIServiceAdvanced.generate_flashcards`.
Keys that only some return sites populate are `Option`s. -/
structure GenResult where
  success : Bool
  error : Option String
  flashcards : List FlashcardAI
  generation_time_ms : Nat
  model_used : Option String
  attempts_made : Option Nat
  quantity_requested : Option Int
  quantity_generated : Option Nat
deriving DecidableEq

/-- The long-lived configuration of `AIServiceAdvanced.__init__` that the
claims touch: provider and model names and the min/max flashcard bounds
read from the environment. -/
structure AIConfig where
  provider : String
  model_name : String
  max_flashcards : Int
  min_flashcards : Int
deriving DecidableEq

/-- Environment defaults: `AI_PROVIDER` "openai", `DEFAULT_MODEL`
"gpt-3.5-turbo", `MAX_FLASHCARDS_PER_REQUEST` 15,
`MIN_FLASHCARDS_PER_REQUEST` 1. -/
def defaultConfig : AIConfig :=
  { provider := "openai"
    model_name := "gpt-3.5-turbo"
    max_flashcards := 15
    min_flashcards := 1 }

/-- Line 138 of `ai_service.py`:
`quantity = max(self.min_flashcards, min(quantity, self.max_flashcards))`. -/
def clampQuantity (cfg : AIConfig) (quantity : Int) : Int :=
  max cfg.min_flashcards (min quantity cfg.max_flashcards)

/-- `max_retries = 2` (line 144): attempts are numbered 0, 1, 2. -/
def max_retries : Nat := 2

/-- `timeout=30.0` seconds on each LLM call (line 170), in milliseconds. -/
def llm_timeout_ms : Nat := 30000

/-- Whether the character list `p` is an initial segment of `l`. -/
def charsStartWith : List Char → List Char → Bool
  | [], _ => true
  | _ :: _, [] => false
  | p :: ps, c :: cs => p = c && charsStartWith ps cs

/-- Python `pat in s` on character lists: `pat` occurs contiguously in the
list (an empty pattern always occurs). -/
def charsContain (pat : List Char) : List Char → Bool
  | [] => pat.isEmpty
  | c :: cs => charsStartWith pat (c :: cs) || charsContain pat cs

/-- Line 203: `"length limit" in error_msg.lower() or "token" in
error_msg.lower()`.  `str.lower()` is character-wise lowering. -/
def isTokenLimitError (msg : String) : Bool :=
  charsContain "length limit".data (msg.data.map Char.toLower) ||
  charsContain "token".data (msg.data.map Char.toLower)

/-- A built prompt, as the pair of rendered system and human messages of
`ChatPromptTemplate.from_messages`. -/
structure ChatPrompt where
  system : String
  human : String
deriving DecidableEq

/-- Lines 73–77: `language_map = {"pt": "português brasileiro"}` and
`language_map.get(language, "português brasileiro")`. -/
def language_name (language : String) : String :=
  (if language = "pt" then some "português brasileiro" else none).getD "português brasileiro"

/-- Lines 80–84 and 106: `difficulty_map.get(difficulty, '')`. -/
def difficulty_instruction (difficulty : String) : String :=
  if difficulty = "beginner" then "Use linguagem simples e conceitos básicos."
  else if difficulty = "intermediate" then "Use terminologia técnica apropriada com exemplos."
  else if difficulty = "advanced" then "Use conceitos complexos e terminologia avançada."
  else ""

/-- `AIServiceAdvanced._create_prompt` (lines 67–118).  `context` and
`focus_areas` follow Python truthiness: `None`, `""` and `[]` contribute
nothing.  Note line 91 embeds only `focus_areas[:3]`. -/
def create_prompt (topic : String) (quantity : Int) (difficulty language : String)
    (context : Option String) (focus_areas : Option (List String)) : ChatPrompt :=
  let context_parts : List String :=
    (match context with
     | some c => if c = "" then [] else ["Contexto: " ++ c]
     | none => []) ++
    (match focus_areas with
     | some fa => if fa = [] then [] else ["Foque em: " ++ String.intercalate ", " (fa.take 3)]
     | none => [])
  let additional_context : String :=
    if context_parts = [] then "" else "\n" ++ String.intercalate ". " context_parts
  let system_message : String :=
    "Gere EXATAMENTE " ++ toString quantity ++ " flashcards sobre \"" ++ topic ++
    "\" em " ++ language_name language ++ ".\n\n" ++
    "FORMATO OBRIGATÓRIO para cada flashcard:\n" ++
    "- Front: Pergunta clara (máx 150 chars)\n" ++
    "- Back: Resposta completa (máx 400 chars)  \n" ++
    "- Difficulty: " ++ difficulty ++ "\n" ++
    "- Tags: 2-3 palavras-chave\n" ++
    "- Explanation: Contexto adicional (máx 200 chars)\n\n" ++
    "REGRAS:\n" ++
    "- " ++ difficulty_instruction difficulty ++ "\n" ++
    "- Varie tipos: definições, comparações, aplicações\n" ++
    "- Seja educativo e preciso\n" ++
    "- Evite repetições" ++ additional_context ++ "\n\n" ++
    "RESPONDA APENAS COM O JSON ESTRUTURADO."
  { system := system_message, human := "Tópico: " ++ topic }

/-- The retry loop of `AIServiceAdvanced.generate_flashcards`
(lines 145–231), walked over the remaining attempt indices of
`range(max_retries + 1)`.  Arguments after the oracle and the request
fields: remaining attempt indices, current `quantity`, and milliseconds
elapsed since `start_time`.  Besides the result dictionary it returns the
instrumentation: the quantity handed to `_create_prompt` at each attempt
made, and the total milliseconds consumed (LLM calls plus the
`asyncio.sleep` backoffs of 1s, or 0.5s after a token-limit reduction). -/
def runAttempts (llm : Nat → ChatPrompt → LLMBehavior) (topic : String)
    (original_quantity : Int) (difficulty language : String)
    (context : Option String) (focus_areas : Option (List String))
    (provider model_name : String) :
    List Nat → Int → Nat → GenResult × List Int × Nat
  | [], _quantity, elapsed_ms =>
    -- Lines 226–231: "Fallback final - nunca deveria chegar aqui".
    ({ success := false
       error := some "Erro inesperado no sistema de retry"
       flashcards := []
       generation_time_ms := 0
       model_used := none
       attempts_made := none
       quantity_requested := none
       quantity_generated := none }, [], elapsed_ms)
  | attempt :: rest, quantity, elapsed_ms =>
    -- Lines 150–152: on the last attempt, a still-large quantity is capped at 5.
    let quantity := if attempt = max_retries ∧ quantity > 5 then min 5 quantity else quantity
    let prompt := create_prompt topic quantity difficulty language context focus_areas
    let called := waitFor llm_timeout_ms (llm attempt prompt)
    let elapsed_ms := elapsed_ms + called.2
    match called.1 with
    | CallOutcome.ok (some (c :: cards)) =>
      -- Lines 177–190: success return (the emptiness check at line 174 passed).
      ({ success := true
         error := none
         flashcards := c :: cards
         generation_time_ms := elapsed_ms
         model_used := some (provider ++ "/" ++ model_name)
         attempts_made := some (attempt + 1)
         quantity_requested := some original_quantity
         quantity_generated := some (c :: cards).length }, [quantity], elapsed_ms)
    | CallOutcome.ok _ =>
      -- Line 174 raises ValueError("Resultado vazio ou inválido"), caught by
      -- the generic handler at line 198; lines 202–223 follow.
      if isTokenLimitError "Resultado vazio ou inválido" ∧ quantity > 3 ∧ attempt < max_retries then
        let r := runAttempts llm topic original_quantity difficulty language context
          focus_areas provider model_name rest (max 3 (quantity / 2)) (elapsed_ms + 500)
        (r.1, quantity :: r.2.1, r.2.2)
      else if attempt < max_retries then
        let r := runAttempts llm topic original_quantity difficulty language context
          focus_areas provider model_name rest quantity (elapsed_ms + 1000)
        (r.1, quantity :: r.2.1, r.2.2)
      else
        ({ success := false
           error := some ("Falha após " ++ toString (max_retries + 1) ++
             " tentativas: " ++ "Resultado vazio ou inválido")
           flashcards := []
           generation_time_ms := elapsed_ms
           model_used := none
           attempts_made := some (attempt + 1)
           quantity_requested := none
           quantity_generated := none }, [quantity], elapsed_ms)
    | CallOutcome.timeout =>
      -- Lines 192–196: a timeout sleeps 1s and retries while attempts remain;
      -- on the last attempt it falls through, ending the loop.
      if attempt < max_retries then
        let r := runAttempts llm topic original_quantity difficulty language context
          focus_areas provider model_name rest quantity (elapsed_ms + 1000)
        (r.1, quantity :: r.2.1, r.2.2)
      else
        let r := runAttempts llm topic original_quantity difficulty language context
          focus_areas provider model_name rest quantity elapsed_ms
        (r.1, quantity :: r.2.1, r.2.2)
    | CallOutcome.exn msg =>
      -- Lines 198–223: token-limit degradation, generic retry, terminal failure.
      if isTokenLimitError msg ∧ quantity > 3 ∧ attempt < max_retries then
        let r := runAttempts llm topic original_quantity difficulty language context
          focus_areas provider model_name rest (max 3 (quantity / 2)) (elapsed_ms + 500)
        (r.1, quantity :: r.2.1, r.2.2)
      else if attempt < max_retries then
        let r := runAttempts llm topic original_quantity difficulty language context
          focus_areas provider model_name rest quantity (elapsed_ms + 1000)
        (r.1, quantity :: r.2.1, r.2.2)
      else
        ({ success := false
           error := some ("Falha após " ++ toString (max_retries + 1) ++
             " tentativas: " ++ msg)
           flashcards := []
           generation_time_ms := elapsed_ms
           model_used := none
           attempts_made := some (attempt + 1)
           quantity_requested := none
           quantity_generated := none }, [quantity], elapsed_ms)

/-- `AIServiceAdvanced.generate_flashcards` (lines 120–231).  `configured`
is the truthiness of `self.structured_llm`; the quantity is clamped at
line 138 before the loop starts; `original_quantity` keeps the caller's
request for the metadata. -/
def generate_flashcards (cfg : AIConfig) (configured : Bool)
    (llm : Nat → ChatPrompt → LLMBehavior) (topic : String) (quantity : Int)
    (difficulty language : String) (context : Option String)
    (focus_areas : Option (List String)) : GenResult × List Int × Nat :=
  if configured = false then
    ({ success := false
       error := some "Serviço de IA não configurado corretamente"
       flashcards := []
       generation_time_ms := 0
       model_used := none
       attempts_made := none
       quantity_requested := none
       quantity_generated := none }, [], 0)
  else
    runAttempts llm topic quantity difficulty language context focus_areas
      cfg.provider cfg.model_name (List.range (max_retries + 1))
      (clampQuantity cfg quantity) 0

/-- ASCII whitespace as recognised by Python's `str.split()` and
`str.isspace()`. -/
def pyIsSpaceChar (c : Char) : Bool :=
  c = ' ' || c = '\t' || c = '\n' || c = '\r' || c = '\x0b' || c = '\x0c'

/-- Python `str.isspace()`: non-empty and every character whitespace. -/
def pyStrIsSpace (s : String) : Bool :=
  !s.data.isEmpty && s.data.all pyIsSpaceChar

/-- Python `str.isdigit()` on ASCII text: non-empty and every character a
digit. -/
def pyStrIsDigit (s : String) : Bool :=
  !s.data.isEmpty && s.data.all Char.isDigit

/-- Worker for `str.split()` with no separator: `acc` holds the current
word reversed; whitespace closes a word, empty pieces are dropped. -/
def pySplitAux : List Char → List Char → List (List Char)
  | [], acc => if acc.isEmpty then [] else [acc.reverse]
  | c :: cs, acc =>
    if pyIsSpaceChar c then
      if acc.isEmpty then pySplitAux cs [] else acc.reverse :: pySplitAux cs []
    else pySplitAux cs (c :: acc)

/-- Python `v.split()`: split on runs of whitespace, discarding empties. -/
def pySplitWhitespace (s : String) : List String :=
  (pySplitAux s.data []).map String.mk

/-- `FlashcardAdvancedGenerationRequest.validate_topic`
(`src/models/request.py`, lines 57–70): reject empty/whitespace-only,
collapse whitespace via `' '.join(v.split())`, reject purely numeric. -/
def validate_topic (v : String) : Except String String :=
  if v.data.isEmpty || pyStrIsSpace v then
    Except.error "Tópico não pode estar vazio"
  else
    let v2 := String.intercalate " " (pySplitWhitespace v)
    if pyStrIsDigit v2 then
      Except.error "Tópico deve conter texto, não apenas números"
    else
      Except.ok v2

/-- Attribute names of Python's `datetime.datetime` class.  `main.py` does
`from datetime import datetime`, binding the name `datetime` to this class;
`timezone` is a member of the `datetime` *module*, not of the class, so it
is absent here. -/
def datetimeClassAttrs : List String :=
  ["min", "max", "resolution", "year", "month", "day", "hour", "minute",
   "second", "microsecond", "tzinfo", "fold", "today", "now", "utcnow",
   "fromtimestamp", "utcfromtimestamp", "fromordinal", "fromisoformat",
   "fromisocalendar", "strptime", "combine", "date", "time", "timetz",
   "replace", "astimezone", "utcoffset", "dst", "tzname", "timetuple",
   "utctimetuple", "toordinal", "timestamp", "weekday", "isoweekday",
   "isocalendar", "isoformat", "ctime", "strftime"]

/-- Attribute lookup on the imported `datetime` class: missing attributes
raise `AttributeError`. -/
def datetimeClassGetattr (attr : String) : Except String Unit :=
  if datetimeClassAttrs.contains attr then Except.ok ()
  else Except.error
    ("AttributeError: type object 'datetime.datetime' has no attribute '" ++ attr ++ "'")

/-- Payload of `GET /` (`main.py`, lines 40–47). -/
structure RootPayload where
  message : String
  status : String
  version : String
  docs : String
deriving DecidableEq

/-- The `root` handler (`main.py`, lines 40–47): a literal dictionary. -/
def root : RootPayload :=
  { message := "Flashcards API está funcionando!"
    status := "healthy"
    version := "1.0.0"
    docs := "/docs" }

/-- Payload of `GET /health` (`main.py`, lines 50–57). -/
structure HealthPayload where
  status : String
  service : String
  version : String
  timestamp : String
deriving DecidableEq

/-- The `health_check` handler (`main.py`, lines 50–57).  Its timestamp
expression is `datetime.now(datetime.timezone.utc).isoformat()`, which
first evaluates the attribute access `datetime.timezone` on the imported
`datetime` class; `now_utc_iso` stands for the ISO timestamp the handler
would report if that lookup succeeded. -/
def health_check (now_utc_iso : String) : Except String HealthPayload :=
  match datetimeClassGetattr "timezone" with
  | Except.error e => Except.error e
  | Except.ok _ =>
    Except.ok
      { status := "healthy"
        service := "flashcards-api"
        version := "1.0.0"
        timestamp := now_utc_iso }

/-- The filesystem state the PDF loaders touch: whether the scratch file
written by `tempfile.NamedTemporaryFile(delete=False, suffix=".pdf")`
currently exists. -/
structure ScratchFS where
  tempExists : Bool
deriving DecidableEq

/-- The `with tempfile.NamedTemporaryFile(delete=False, ...)` block: the
scratch file is created and written; `delete=False` keeps it on close. -/
def createTempPdfFile (_s : ScratchFS) : ScratchFS := { tempExists := true }

/-- `os.unlink(temp_path)` (`rag_service.py`, line 75). -/
def unlinkTempPdf (_s : ScratchFS) : ScratchFS := { tempExists := false }

/-- `if os.path.exists(temp_path): os.unlink(temp_path)`
(`flashcard_service.py`, lines 96–97). -/
def unlinkTempPdfIfExists (s : ScratchFS) : ScratchFS :=
  if s.tempExists then { tempExists := false } else s

/-- Python `try … finally`: the body produces a value or an exception (an
`Except.error`); the finaliser acts on the filesystem on either exit, and
the body's outcome — value or propagating exception — is passed through. -/
def tryFinallyE (body : Except String (List String))
    (finaliser : ScratchFS → ScratchFS) (s : ScratchFS) :
    ScratchFS × Except String (List String) :=
  (finaliser s, body)

/-- `FlashcardGeneratorService._load_pdf_content` of `rag_service.py`
(lines 56–75).  Documents are modelled by their `page_content`;
`split_documents` is the opaque text splitter and `loader_load` the
outcome of `PyPDFLoader(temp_path).load()` — a page list, or a parse
error / exception.  On an empty page list, `documents[0]` in the
condition at line 69 raises an `IndexError` inside the `try`. -/
def load_pdf_content_rag (split_documents : List String → List String)
    (loader_load : Except String (List String)) (s : ScratchFS) :
    ScratchFS × Except String (List String) :=
  let s := createTempPdfFile s
  let body : Except String (List String) :=
    match loader_load with
    | Except.error e => Except.error e
    | Except.ok documents =>
      if documents.length > 1 then Except.ok (split_documents documents)
      else
        match documents with
        | [] => Except.error "IndexError: list index out of range"
        | d :: rest =>
          if d.length > 8000 then Except.ok (split_documents (d :: rest))
          else Except.ok (d :: rest)
  tryFinallyE body unlinkTempPdf s

/-- `FlashcardGeneratorService._load_pdf_content` of `flashcard_service.py`
(lines 68–97).  The metadata tagging of lines 81–82 does not change the
modelled page content; the `except` clause at lines 91–93 logs and
re-raises, leaving the propagating exception unchanged; the guard
`documents and …` at line 85 makes the empty page list fall through to a
normal return. -/
def load_pdf_content_service (split_documents : List String → List String)
    (loader_load : Except String (List String)) (s : ScratchFS) :
    ScratchFS × Except String (List String) :=
  let s := createTempPdfFile s
  let body : Except String (List String) :=
    match loader_load with
    | Except.error e => Except.error e
    | Except.ok documents =>
      match documents with
      | [] => Except.ok ([] : List String)
      | d :: rest =>
        if (d :: rest).length > 1 || d.length > 6000 then
          Except.ok (split_documents (d :: rest))
        else Except.ok (d :: rest)
  tryFinallyE body unlinkTempPdfIfExists s

/-- A sample flashcard used in concrete executions of the model. -/
def sampleCard : FlashcardAI :=
  { front := "O que é um flashcard?"
    back := "Um cartão de estudo com pergunta e resposta."
    difficulty := "intermediate"
    tags := ["estudo"]
    explanation := none }

/-- Oracle: every call finishes in 100 ms with a valid result of one
flashcard. -/
def llmOneCard : Nat → ChatPrompt → LLMBehavior :=
  fun _ _ => { duration_ms := 100, raw := LLMRaw.ok (some [sampleCard]) }

/-- Oracle: every call finishes quickly with a valid result of sixteen
flashcards — one more than the default configured maximum of 15. -/
def llmSixteenCards : Nat → ChatPrompt → LLMBehavior :=
  fun _ _ => { duration_ms := 100, raw := LLMRaw.ok (some (List.replicate 16 sampleCard)) }

/-- Oracle: the underlying call always takes 40 s, beyond the 30 s bound,
so every attempt times out. -/
def llmAlwaysSlow : Nat → ChatPrompt → LLMBehavior :=
  fun _ _ => { duration_ms := 40000, raw := LLMRaw.ok (some [sampleCard]) }

/-- Oracle: every call fails with a token-limit error message. -/
def llmTokenLimit : Nat → ChatPrompt → LLMBehavior :=
  fun _ _ => { duration_ms := 500, raw := LLMRaw.exn "token limit exceeded" }

/-- Oracle: too slow (timing out) on attempts 0 and 1, then a valid
one-card result on attempt 2. -/
def llmSlowTwiceThenOk : Nat → ChatPrompt → LLMBehavior :=
  fun attempt _ =>
    if attempt < 2 then { duration_ms := 40000, raw := LLMRaw.ok (some [sampleCard]) }
    else { duration_ms := 1234, raw := LLMRaw.ok (some [sampleCard]) }

/-- Oracle: a structurally valid but empty flashcard list on attempt 0,
then a valid one-card result. -/
def llmEmptyThenOk : Nat → ChatPrompt → LLMBehavior :=
  fun attempt _ =>
    if attempt = 0 then { duration_ms := 100, raw := LLMRaw.ok (some []) }
    else { duration_ms := 100, raw := LLMRaw.ok (some [sampleCard]) }

/-- Every result the retry loop reports as a success carries a non-empty
flashcard list, and its `quantity_generated` is that list's length. -/
theorem runAttempts_success_shape (llm : Nat → ChatPrompt → LLMBehavior)
    (topic : String) (oq : Int) (d lang : String) (ctx : Option String)
    (fa : Option (List String)) (p m : String) :
    ∀ (atts : List Nat) (q : Int) (e : Nat),
      (runAttempts llm topic oq d lang ctx fa p m atts q e).1.success = true →
      (runAttempts llm topic oq d lang ctx fa p m atts q e).1.flashcards ≠ [] ∧
      (runAttempts llm topic oq d lang ctx fa p m atts q e).1.quantity_generated =
        some (runAttempts llm topic oq d lang ctx fa p m atts q e).1.flashcards.length := by
  intro atts
  induction atts with
  | nil => intro q e h; simp [runAttempts] at h
  | cons a rest ih =>
    intro q e h
    simp only [runAttempts] at h ⊢
    generalize (if a = max_retries ∧ q > 5 then min 5 q else q) = Q at h ⊢
    generalize (waitFor llm_timeout_ms (llm a (create_prompt topic Q d lang ctx fa))).1 = co at h ⊢
    cases co with
    | timeout =>
      dsimp only at h ⊢
      split_ifs at h ⊢ <;> exact ih _ _ h
    | exn msg =>
      dsimp only at h ⊢
      split_ifs at h ⊢ <;> exact ih _ _ h
    | ok r =>
      rcases r with _ | ⟨_ | ⟨c, cards⟩⟩
      · dsimp only at h ⊢
        split_ifs at h ⊢ <;> exact ih _ _ h
      · dsimp only at h ⊢
        split_ifs at h ⊢ <;> exact ih _ _ h
      · simp

/-- Every quantity the retry loop hands to the prompt builder stays at or
above 3 when the starting quantity is at least 3: the halving on
token-limit errors is floored at 3 (`max(3, quantity // 2)`) and the
last-attempt cap only brings a quantity above 5 down to 5. -/
theorem runAttempts_trace_lower_bound (llm : Nat → ChatPrompt → LLMBehavior)
    (topic : String) (oq : Int) (d lang : String) (ctx : Option String)
    (fa : Option (List String)) (p m : String) :
    ∀ (atts : List Nat) (q : Int) (e : Nat), 3 ≤ q →
      ∀ x ∈ (runAttempts llm topic oq d lang ctx fa p m atts q e).2.1, 3 ≤ x := by
  intro atts
  induction atts with
  | nil => intro q e hq x hx; simp [runAttempts] at hx
  | cons a rest ih =>
    intro q e hq x hx
    simp only [runAttempts] at hx
    have hQ : 3 ≤ (if a = max_retries ∧ q > 5 then min 5 q else q) := by
      split_ifs with hcond
      · have h5 : (5:Int) ≤ q := by omega
        rw [min_eq_left h5]; omega
      · exact hq
    generalize (if a = max_retries ∧ q > 5 then min 5 q else q) = Q at hx hQ
    generalize (waitFor llm_timeout_ms (llm a (create_prompt topic Q d lang ctx fa))).1 = co at hx
    have hhalf : (3:Int) ≤ max 3 (Q / 2) := le_max_left _ _
    cases co with
    | timeout =>
      dsimp only at hx
      split_ifs at hx <;>
        (rcases List.mem_cons.mp hx with rfl | hx2
         · exact hQ
         · exact ih _ _ (by assumption) x hx2)
    | exn msg =>
      dsimp only at hx
      split_ifs at hx <;>
        (rcases List.mem_cons.mp hx with rfl | hx2
         · exact hQ
         · first
           | exact absurd hx2 (List.not_mem_nil _)
           | exact ih _ _ (by assumption) x hx2)
    | ok r =>
      rcases r with _ | ⟨_ | ⟨c, cards⟩⟩ <;> dsimp only at hx
      · split_ifs at hx <;>
          (rcases List.mem_cons.mp hx with rfl | hx2
           · exact hQ
           · first
             | exact absurd hx2 (List.not_mem_nil _)
             | exact ih _ _ (by assumption) x hx2)
      · split_ifs at hx <;>
          (rcases List.mem_cons.mp hx with rfl | hx2
           · exact hQ
           · first
             | exact absurd hx2 (List.not_mem_nil _)
             | exact ih _ _ (by assumption) x hx2)
      · rcases List.mem_cons.mp hx with rfl | hx2
        · exact hQ
        · exact absurd hx2 (List.not_mem_nil _)

/-- The quantity handed to the prompt builder on the first attempt
(attempt index 0) is exactly the quantity the loop was entered with:
the last-attempt cap does not apply at attempt 0. -/
theorem runAttempts_trace_head (llm : Nat → ChatPrompt → LLMBehavior)
    (topic : String) (oq : Int) (d lang : String) (ctx : Option String)
    (fa : Option (List String)) (p m : String) (rest : List Nat) (q : Int) (e : Nat) :
    (runAttempts llm topic oq d lang ctx fa p m (0 :: rest) q e).2.1.head? = some q := by
  simp only [runAttempts]
  have h0 : ¬(0 = max_retries ∧ q > 5) := by simp [max_retries]
  rw [if_neg h0]
  generalize (waitFor llm_timeout_ms (llm 0 (create_prompt topic q d lang ctx fa))).1 = co
  cases co with
  | timeout => dsimp only; split_ifs <;> rfl
  | exn msg => dsimp only; split_ifs <;> rfl
  | ok r =>
    rcases r with _ | ⟨_ | ⟨c, cards⟩⟩ <;> dsimp only
    · split_ifs <;> rfl
    · split_ifs <;> rfl
    · rfl

/-- Digits are never Python whitespace. -/
theorem digit_char_not_space (c : Char) (h : c.isDigit = true) : pyIsSpaceChar c = false := by
  cases hpc : pyIsSpaceChar c
  · rfl
  · exfalso
    simp only [pyIsSpaceChar, Bool.or_eq_true, decide_eq_true_eq] at hpc
    rcases hpc with ((((rfl | rfl) | rfl) | rfl) | rfl) | rfl <;> exact absurd h (by decide)

/-- On input with no whitespace characters, the whitespace splitter keeps
the pending word and the rest of the input as one single piece. -/
theorem pySplitAux_all_nonspace (l : List Char) :
    ∀ acc : List Char, l.all (fun c => !pyIsSpaceChar c) = true →
      pySplitAux l acc = if (acc.reverse ++ l).isEmpty then [] else [acc.reverse ++ l] := by
  induction l with
  | nil =>
    intro acc _
    cases acc <;> simp [pySplitAux]
  | cons c cs ih =>
    intro acc hall
    simp only [List.all_cons, Bool.and_eq_true, Bool.not_eq_true'] at hall
    obtain ⟨hc, hcs⟩ := hall
    simp only [pySplitAux, hc]
    rw [ih (c :: acc) hcs]
    simp [List.reverse_cons, List.append_assoc]

/-- A list of digit characters contains no whitespace. -/
theorem all_digits_nonspace (l : List Char) (h : l.all Char.isDigit = true) :
    l.all (fun c => !pyIsSpaceChar c) = true := by
  simp only [List.all_eq_true] at h ⊢
  intro c hc
  simp [digit_char_not_space c (h c hc)]

/-- Whitespace collapsing leaves a purely numeric string unchanged. -/
theorem collapse_of_all_digits (v : String) (h : pyStrIsDigit v = true) :
    String.intercalate " " (pySplitWhitespace v) = v := by
  simp only [pyStrIsDigit, Bool.and_eq_true, Bool.not_eq_true'] at h
  obtain ⟨hne, hall⟩ := h
  have hsplit : pySplitAux v.data [] = [v.data] := by
    rw [pySplitAux_all_nonspace v.data [] (all_digits_nonspace v.data hall)]
    simp [hne]
  simp only [pySplitWhitespace, hsplit, List.map_cons, List.map_nil]
  have h1 : String.intercalate " " [String.mk v.data] = String.mk v.data := rfl
  rw [h1]

/-- A purely numeric string is neither empty nor whitespace-only. -/
theorem digits_not_space_str (v : String) (h : pyStrIsDigit v = true) :
    (v.data.isEmpty || pyStrIsSpace v) = false := by
  simp only [pyStrIsDigit, Bool.and_eq_true, Bool.not_eq_true'] at h
  obtain ⟨hne, hall⟩ := h
  rcases hd : v.data with _ | ⟨c, cs⟩
  · rw [hd] at hne; simp at hne
  · have hcd : c.isDigit = true := by
      have := List.all_eq_true.mp hall c
      rw [hd] at this
      exact this (List.mem_cons_self c cs)
    simp [pyStrIsSpace, hd, hne, List.all_cons, digit_char_not_space c hcd]

/-- C1 (counterexample): an LLM reply of 16 flashcards — one more than the
configured maximum of 15 — is returned as a success with
`quantity_generated = 16`; the code never bounds the size of a successful
result by `max_flashcards`, refuting the claimed upper bound. -/
theorem C1_counterexample :
    (generate_flashcards defaultConfig true llmSixteenCards "Grafos" 5
      "intermediate" "pt" none none).1.success = true ∧
    (generate_flashcards defaultConfig true llmSixteenCards "Grafos" 5
      "intermediate" "pt" none none).1.quantity_generated = some 16 ∧
    ¬((16 : Int) ≤ defaultConfig.max_flashcards) :=
  ⟨rfl, rfl, by decide⟩

/-- C1 (amended): for every call to `generate_flashcards` that returns a
result with success=true, `quantity_generated` is the length of the
returned flashcard list and is at least 1; the configured maximum bounds
only the requested quantity (clamped before prompting), not the size of a
successful result. -/
theorem C1_success_count_lower_bound (cfg : AIConfig) (configured : Bool)
    (llm : Nat → ChatPrompt → LLMBehavior) (topic : String) (q : Int)
    (d lang : String) (ctx : Option String) (fa : Option (List String))
    (h : (generate_flashcards cfg configured llm topic q d lang ctx fa).1.success = true) :
    (generate_flashcards cfg configured llm topic q d lang ctx fa).1.quantity_generated =
      some (generate_flashcards cfg configured llm topic q d lang ctx fa).1.flashcards.length ∧
    1 ≤ (generate_flashcards cfg configured llm topic q d lang ctx fa).1.flashcards.length := by
  unfold generate_flashcards at h ⊢
  split_ifs at h ⊢ with hc
  have hs := runAttempts_success_shape llm topic q d lang ctx fa
    cfg.provider cfg.model_name (List.range (max_retries + 1)) (clampQuantity cfg q) 0 h
  exact ⟨hs.2, List.length_pos.mpr hs.1⟩

/-- C1 (witness): a successful one-card run satisfying the amended claim. -/
theorem C1_success_count_lower_bound_witness :
    (generate_flashcards defaultConfig true llmOneCard "Grafos" 5
      "intermediate" "pt" none none).1.success = true ∧
    ((generate_flashcards defaultConfig true llmOneCard "Grafos" 5
        "intermediate" "pt" none none).1.quantity_generated =
      some (generate_flashcards defaultConfig true llmOneCard "Grafos" 5
        "intermediate" "pt" none none).1.flashcards.length ∧
    1 ≤ (generate_flashcards defaultConfig true llmOneCard "Grafos" 5
      "intermediate" "pt" none none).1.flashcards.length) :=
  ⟨by decide, C1_success_count_lower_bound defaultConfig true llmOneCard "Grafos" 5
    "intermediate" "pt" none none (by decide)⟩

/-- C2 (code bug): when every attempt fails by timeout — the underlying
call taking 40 s against the 30 s bound — the loop falls through to the
"Fallback final - nunca deveria chegar aqui" return: success=false and an
empty flashcard list as claimed, but the error message is the generic
"Erro inesperado no sistema de retry", naming neither the attempt count
nor the last underlying error, `attempts_made` is absent, and
`generation_time_ms` is the literal 0 even though the call consumed
92 000 ms (three 30 s timeouts plus two 1 s backoffs). -/
theorem C2_final_timeout_reaches_fallback :
    (generate_flashcards defaultConfig true llmAlwaysSlow "Grafos" 5
      "intermediate" "pt" none none).1.success = false ∧
    (generate_flashcards defaultConfig true llmAlwaysSlow "Grafos" 5
      "intermediate" "pt" none none).1.flashcards = [] ∧
    (generate_flashcards defaultConfig true llmAlwaysSlow "Grafos" 5
      "intermediate" "pt" none none).1.error =
      some "Erro inesperado no sistema de retry" ∧
    (generate_flashcards defaultConfig true llmAlwaysSlow "Grafos" 5
      "intermediate" "pt" none none).1.attempts_made = none ∧
    (generate_flashcards defaultConfig true llmAlwaysSlow "Grafos" 5
      "intermediate" "pt" none none).1.generation_time_ms = 0 ∧
    (generate_flashcards defaultConfig true llmAlwaysSlow "Grafos" 5
      "intermediate" "pt" none none).2.2 = 92000 :=
  ⟨rfl, rfl, rfl, rfl, rfl, rfl⟩

/-- C3: the quantity used for the first attempt is always the requested
quantity clamped into the configured `[min_flashcards, max_flashcards]`
range, and with the defaults (min 1, max 15) requesting 100 yields 15 and
requesting 0 yields 1 — the loop is reached, never a rejection. -/
theorem C3_first_attempt_quantity_clamped (cfg : AIConfig)
    (llm : Nat → ChatPrompt → LLMBehavior) (topic : String) (q : Int)
    (d lang : String) (ctx : Option String) (fa : Option (List String)) :
    (generate_flashcards cfg true llm topic q d lang ctx fa).2.1.head? =
      some (clampQuantity cfg q) ∧
    clampQuantity defaultConfig 100 = 15 ∧ clampQuantity defaultConfig 0 = 1 := by
  refine ⟨?_, by decide, by decide⟩
  exact runAttempts_trace_head llm topic q d lang ctx fa cfg.provider cfg.model_name [1, 2]
    (clampQuantity cfg q) 0

/-- C4: whenever the starting (clamped) quantity is at least the floor 3,
every quantity the loop hands to the prompt builder stays at or above 3 —
token-limit halving is `max(3, quantity // 2)` — and on an oracle that
always fails with a token-limit message, a request for 12 flashcards makes
attempts with quantities exactly 12, then 6, then 3. -/
theorem C4_token_limit_degradation (llm : Nat → ChatPrompt → LLMBehavior)
    (topic : String) (q : Int) (d lang : String) (ctx : Option String)
    (fa : Option (List String))
    (h : 3 ≤ clampQuantity defaultConfig q) :
    (∀ x ∈ (generate_flashcards defaultConfig true llm topic q d lang ctx fa).2.1, 3 ≤ x) ∧
    (generate_flashcards defaultConfig true llmTokenLimit "Grafos" 12
      "intermediate" "pt" none none).2.1 = [12, 6, 3] := by
  constructor
  · intro x hx
    exact runAttempts_trace_lower_bound llm topic q d lang ctx fa
      defaultConfig.provider defaultConfig.model_name (List.range (max_retries + 1))
      (clampQuantity defaultConfig q) 0 h x hx
  · decide

/-- C4 (witness): the degradation claim instantiated at the token-limit
oracle with requested quantity 12. -/
theorem C4_token_limit_degradation_witness :
    3 ≤ clampQuantity defaultConfig 12 ∧
    ((∀ x ∈ (generate_flashcards defaultConfig true llmTokenLimit "Grafos" 12
        "intermediate" "pt" none none).2.1, 3 ≤ x) ∧
     (generate_flashcards defaultConfig true llmTokenLimit "Grafos" 12
        "intermediate" "pt" none none).2.1 = [12, 6, 3]) :=
  ⟨by decide, C4_token_limit_degradation llmTokenLimit "Grafos" 12
    "intermediate" "pt" none none (by decide)⟩

/-- C5: each LLM call consumes at most the 30 s bound, a call whose
underlying duration exceeds the bound is observed as a timeout, and on an
oracle timing out on attempts 1 and 2 and succeeding on attempt 3 the
final result has success=true and attempts_made=3. -/
theorem C5_timeout_bounded_and_retryable :
    (∀ b : LLMBehavior, (waitFor llm_timeout_ms b).2 ≤ llm_timeout_ms) ∧
    (∀ raw : LLMRaw,
      (waitFor llm_timeout_ms { duration_ms := 40000, raw := raw }).1 = CallOutcome.timeout) ∧
    (generate_flashcards defaultConfig true llmSlowTwiceThenOk "Grafos" 5
      "intermediate" "pt" none none).1.success = true ∧
    (generate_flashcards defaultConfig true llmSlowTwiceThenOk "Grafos" 5
      "intermediate" "pt" none none).1.attempts_made = some 3 := by
  refine ⟨?_, fun raw => rfl, rfl, rfl⟩
  intro b
  unfold waitFor
  split_ifs with hgt
  · exact le_refl _
  · simp only []
    omega

/-- C6 (code bug): `GET /` returns its static payload, but `GET /health`
raises on every invocation: its timestamp expression evaluates
`datetime.timezone` on the class bound by `from datetime import datetime`,
which has no such attribute, so the handler never returns its payload. -/
theorem C6_health_check_attribute_error :
    root = { message := "Flashcards API está funcionando!", status := "healthy",
             version := "1.0.0", docs := "/docs" } ∧
    ∀ now_utc_iso : String, health_check now_utc_iso =
      Except.error "AttributeError: type object 'datetime.datetime' has no attribute 'timezone'" :=
  ⟨rfl, fun _ => rfl⟩

/-- C7: topic validation rejects every empty or whitespace-only topic and
every purely numeric topic with the corresponding validation errors, every
accepted topic is returned with runs of whitespace collapsed to single
spaces, and "  Graph   Theory  " normalizes to exactly "Graph Theory". -/
theorem C7_topic_validation_rules :
    (∀ v : String, v = "" ∨ pyStrIsSpace v = true →
        validate_topic v = Except.error "Tópico não pode estar vazio") ∧
    (∀ v : String, pyStrIsDigit v = true →
        validate_topic v = Except.error "Tópico deve conter texto, não apenas números") ∧
    (∀ v r : String, validate_topic v = Except.ok r →
        r = String.intercalate " " (pySplitWhitespace v)) ∧
    validate_topic "  Graph   Theory  " = Except.ok "Graph Theory" := by
  refine ⟨?_, ?_, ?_, rfl⟩
  · intro v hv
    rcases hv with rfl | hsp
    · rfl
    · simp [validate_topic, hsp]
  · intro v hv
    have h1 := digits_not_space_str v hv
    have h2 := collapse_of_all_digits v hv
    simp only [validate_topic, h1, Bool.false_eq_true, if_false, h2, hv, if_true]
  · intro v r hv
    simp only [validate_topic] at hv
    split_ifs at hv <;>
      first
      | exact Except.noConfusion hv
      | (injection hv with h
         exact h.symm)

/-- C7 (witness): the rules instantiated at "", "12345" and
"  Graph   Theory  ". -/
theorem C7_topic_validation_rules_witness :
    validate_topic "" = Except.error "Tópico não pode estar vazio" ∧
    validate_topic "12345" = Except.error "Tópico deve conter texto, não apenas números" ∧
    "Graph Theory" = String.intercalate " " (pySplitWhitespace "  Graph   Theory  ") :=
  ⟨C7_topic_validation_rules.1 "" (Or.inl rfl),
   C7_topic_validation_rules.2.1 "12345" (by decide),
   C7_topic_validation_rules.2.2.1 "  Graph   Theory  " "Graph Theory"
     C7_topic_validation_rules.2.2.2⟩

/-- C8: a structurally valid but empty flashcard list is treated as a
failed attempt — on an oracle returning an empty list on attempt 1 and a
valid card on attempt 2, the run succeeds with attempts_made=2 — and no
execution whatsoever returns success=true with an empty flashcard list. -/
theorem C8_empty_result_never_success (cfg : AIConfig) (configured : Bool)
    (llm : Nat → ChatPrompt → LLMBehavior) (topic : String) (q : Int)
    (d lang : String) (ctx : Option String) (fa : Option (List String))
    (h : (generate_flashcards cfg configured llm topic q d lang ctx fa).1.success = true) :
    (generate_flashcards cfg configured llm topic q d lang ctx fa).1.flashcards ≠ [] ∧
    (generate_flashcards defaultConfig true llmEmptyThenOk "Grafos" 5
      "intermediate" "pt" none none).1.success = true ∧
    (generate_flashcards defaultConfig true llmEmptyThenOk "Grafos" 5
      "intermediate" "pt" none none).1.attempts_made = some 2 := by
  refine ⟨?_, by decide, by decide⟩
  unfold generate_flashcards at h ⊢
  split_ifs at h ⊢ with hc
  exact (runAttempts_success_shape llm topic q d lang ctx fa
    cfg.provider cfg.model_name (List.range (max_retries + 1)) (clampQuantity cfg q) 0 h).1

/-- C8 (witness): the empty-then-valid oracle run discharging the
success hypothesis. -/
theorem C8_empty_result_never_success_witness :
    (generate_flashcards defaultConfig true llmEmptyThenOk "Grafos" 5
      "intermediate" "pt" none none).1.success = true ∧
    ((generate_flashcards defaultConfig true llmEmptyThenOk "Grafos" 5
        "intermediate" "pt" none none).1.flashcards ≠ [] ∧
     (generate_flashcards defaultConfig true llmEmptyThenOk "Grafos" 5
        "intermediate" "pt" none none).1.success = true ∧
     (generate_flashcards defaultConfig true llmEmptyThenOk "Grafos" 5
        "intermediate" "pt" none none).1.attempts_made = some 2) :=
  ⟨by decide, C8_empty_result_never_success defaultConfig true llmEmptyThenOk "Grafos" 5
    "intermediate" "pt" none none (by decide)⟩

/-- C9: the scratch PDF file is absent after `_load_pdf_content` returns,
for both service variants, on every loader outcome — success, parse error
or any exception — because the unlink sits in a `finally`. -/
theorem C9_scratch_file_absent (split_documents : List String → List String)
    (loader_load : Except String (List String)) (s : ScratchFS) :
    (load_pdf_content_rag split_documents loader_load s).1.tempExists = false ∧
    (load_pdf_content_service split_documents loader_load s).1.tempExists = false :=
  ⟨rfl, rfl⟩

/-- C10: the prompt built by `_create_prompt` depends only on the first
three focus areas — replacing the focus-area list by its first three
entries yields the identical prompt, so entries beyond the third never
enter the prompt text. -/
theorem C10_prompt_uses_first_three_focus_areas (topic : String) (q : Int)
    (d lang : String) (ctx : Option String) (fa : Option (List String)) :
    create_prompt topic q d lang ctx fa =
      create_prompt topic q d lang ctx (fa.map (fun l => l.take 3)) := by
  cases fa with
  | none => rfl
  | some l =>
    cases l with
    | nil => rfl
    | cons a as =>
      simp [create_prompt, List.take_take]
